import Mathlib

/-!
Shallow embedding of the BBT3 basal-body-temperature tracker
(`cycle_analyzer.py`, `graph_utils.py`, `data_manager.py`,
`sqlite_storage.py`) and proofs about its cycle-inference engine.

Modelling conventions, used throughout:

* A Python `date` is represented by its proleptic-Gregorian ordinal
  (`date.toordinal()`, an integer; day 1 = 0001-01-01).  `date.toordinal`
  is an order isomorphism onto a range of integers, date subtraction
  returns the ordinal difference, and `d + timedelta(days=n)` is ordinal
  addition, so this representation is faithful to Python date arithmetic.
  ISO date strings (`datetime.fromisoformat(s).date()`) are represented by
  the ordinal of the date they denote; `fromisoformat` is injective and
  monotone w.r.t. the lexicographic order of ISO strings, so string-level
  sorting in the source corresponds to ordinal sorting here.
* A Python `datetime` (the `'datetime'` field of a temperature record) is
  a date ordinal together with a time-of-day; ISO datetime strings compare
  lexicographically, which is exactly the lexicographic order on
  (date, time-of-day) pairs.
* Python floats are modelled as exact rationals `ℚ`; `statistics.mean` is
  sum / length and `statistics.stdev` is the square root (in `ℝ`) of the
  sample variance.  `list.sort()` / `sorted(...)` are stable ascending
  sorts, modelled by `List.insertionSort` with a `≤`-style relation.
* `date.today()` is a live input of the process; it is threaded through as
  an explicit `today` parameter.
-/

/-- Gregorian leap-year test, as in `calendar.isleap`. -/
def isLeapYear (y : Nat) : Bool :=
  y % 4 == 0 && (y % 100 != 0 || y % 400 == 0)

/-- Days in the months strictly before month `m` in a non-leap year. -/
def daysBeforeMonth (m : Nat) : Nat :=
  [0, 31, 59, 90, 120, 151, 181, 212, 243, 273, 304, 334].getD (m - 1) 0

/-- Proleptic-Gregorian ordinal of the date `y-m-d`, the same function as
CPython `datetime.date(y, m, d).toordinal()`: days before year `y`, plus
days before month `m` in year `y`, plus `d`.  Used to write concrete dates
such as `mkDate 2024 2 25` (= `date.fromisoformat("2024-02-25")`). -/
def mkDate (y m d : Nat) : Int :=
  ((365 * (y - 1) + (y - 1) / 4 - (y - 1) / 100 + (y - 1) / 400
    + daysBeforeMonth m + (if isLeapYear y && decide (m > 2) then 1 else 0)
    + d : Nat) : Int)

/-- Python `datetime` values (the ISO `'datetime'` strings of temperature
records): a date ordinal plus a time-of-day.  ISO strings compare
lexicographically, i.e. by `dtLe` below; `.date()` is the `day` field. -/
structure PyDateTime where
  day : Int
  tod : Nat
deriving DecidableEq

/-- Lexicographic (= ISO-string) order on datetimes. -/
def dtLe (a b : PyDateTime) : Prop :=
  a.day < b.day ∨ (a.day = b.day ∧ a.tod ≤ b.tod)

instance : DecidableRel dtLe := fun a b => by
  unfold dtLe; infer_instance

instance : IsTotal PyDateTime dtLe :=
  ⟨fun a b => by
    rcases lt_trichotomy a.day b.day with h | h | h
    · exact Or.inl (Or.inl h)
    · rcases Nat.le_total a.tod b.tod with h2 | h2
      · exact Or.inl (Or.inr ⟨h, h2⟩)
      · exact Or.inr (Or.inr ⟨h.symm, h2⟩)
    · exact Or.inr (Or.inl h)⟩

instance : IsTrans PyDateTime dtLe :=
  ⟨fun a b c h h2 => by
    simp only [dtLe] at h h2 ⊢
    rcases h with h | ⟨he, ht⟩
    · rcases h2 with h2 | ⟨he2, ht2⟩
      · exact Or.inl (h.trans h2)
      · exact Or.inl (lt_of_lt_of_le h (le_of_eq he2))
    · rcases h2 with h2 | ⟨he2, ht2⟩
      · exact Or.inl (lt_of_le_of_lt (le_of_eq he) h2)
      · exact Or.inr ⟨he.trans he2, ht.trans ht2⟩⟩

/-- A temperature record `{'datetime': ..., 'temperature_celsius': ...}`. -/
structure TempRecord where
  datetime : PyDateTime
  temperature_celsius : ℚ
deriving DecidableEq

/-- Order on temperature records used by `sorted(..., key=lambda x: x['datetime'])`
and by the SQL `ORDER BY datetime`. -/
def tempLe (a b : TempRecord) : Prop := dtLe a.datetime b.datetime

instance : DecidableRel tempLe := fun a b => by
  unfold tempLe; infer_instance

instance : IsTotal TempRecord tempLe :=
  ⟨fun a b => IsTotal.total (r := dtLe) a.datetime b.datetime⟩

instance : IsTrans TempRecord tempLe :=
  ⟨fun a b c h h2 => IsTrans.trans (r := dtLe) a.datetime b.datetime c.datetime h h2⟩

/-- A note record `{'date': ..., 'note'/'text': ..., 'category': ...}`.
The Python dicts carry the note body under the key `'note'` (storage rows)
or `'text'` (records created by the UI); both name the same single text
field of the data model, modelled as one field here.  `save_data`'s
`note.get('note', note.get('text', ''))` projects either dict to exactly
this field. -/
structure Note where
  date : Int
  text : String
  category : String
deriving DecidableEq

/-- Order on notes used by the SQL `ORDER BY date`. -/
def noteLe (a b : Note) : Prop := a.date ≤ b.date

instance : DecidableRel noteLe := fun a b => by
  unfold noteLe; infer_instance

instance : IsTotal Note noteLe := ⟨fun a b => Int.le_total a.date b.date⟩

instance : IsTrans Note noteLe := ⟨fun _ _ _ h h2 => Int.le_trans h h2⟩

/-- The in-memory dataset `{'temperatures': ..., 'notes': ..., 'cycle_starts': ...}`
exchanged between the storage layer and the analyzer.  `cycle_starts` is a
list of ISO date strings in the source, represented by the dates they
denote. -/
structure PyData where
  temperatures : List TempRecord
  notes : List Note
  cycle_starts : List Int
deriving DecidableEq

/-- Python `statistics.mean` (exact; the source only calls it on nonempty
lists). -/
def pyMean (l : List ℚ) : ℚ := l.sum / l.length

/-- Sample variance, the square of Python `statistics.stdev` (the source
only calls `stdev` on lists of length at least 2, where the denominator
`length - 1` is nonzero). -/
def pyVariance (l : List ℚ) : ℚ :=
  (l.map (fun x => (x - pyMean l) ^ 2)).sum / ((l.length : ℚ) - 1)

/-- Python `int(q)`: truncation toward zero. -/
def pyInt (q : ℚ) : Int := if q < 0 then -⌊-q⌋ else ⌊q⌋

/-- Python `max(list)` on a list of dates; `max` raises on an empty list,
which is unreachable at the one call site (guarded by `len >= 2`), so the
empty case is given an arbitrary value. -/
def pyMax (l : List Int) : Int :=
  match l with
  | [] => 0
  | a :: as => as.foldl max a

/-- Python `l[-n:]`: the last `n` elements (all of them when `len(l) < n`). -/
def pySliceLast (n : Nat) (l : List α) : List α := l.drop (l.length - n)

/-- The `for`-loop shared verbatim by the three `_get_cycle_day_for_date`
implementations (`cycle_analyzer.py`, `graph_utils.py`, `data_manager.py`):
`current_cycle_start = None; for d in l: if d <= target: current_cycle_start = d
else: break`. -/
def findStartLoop (target : Int) (l : List Int) (acc : Option Int) :
    Option Int :=
  match l with
  | [] => acc
  | d :: ds => if d ≤ target then findStartLoop target ds (some d) else acc

namespace CycleAnalyzer

/-- `CycleAnalyzer._get_cycle_day_for_date` (cycle_analyzer.py:272-290):
parse the ISO cycle-start strings, sort ascending, run the scan loop, and
return `(target_date - current_cycle_start).days + 1` when a start was
found.  (`if current_cycle_start:` is Python truthiness, but a `date`
object is always truthy, so it is exactly an is-not-None test.) -/
def _get_cycle_day_for_date (target_date : Int) (cycle_starts : List Int) :
    Option Int :=
  if cycle_starts.isEmpty then none
  else
    match findStartLoop target_date
        (List.insertionSort (fun a b => a ≤ b) cycle_starts) none with
    | some s => some (target_date - s + 1)
    | none => none

/-- `CycleAnalyzer._determine_cycle_phase` (cycle_analyzer.py:45-55).  The
`data` argument of the source is unused by the function body. -/
def _determine_cycle_phase (cycle_day : Int) : String :=
  if cycle_day ≤ 5 then "Menstrual"
  else if cycle_day ≤ 12 then "Follicular"
  else if cycle_day ≤ 16 then "Ovulatory"
  else "Luteal"

/-- `CycleAnalyzer._get_recent_cycle_temperatures` (cycle_analyzer.py:265-270):
keep the readings whose date is on or after `today - days` (the source's
default argument is `days=35`, the only value used). -/
def _get_recent_cycle_temperatures (today : Int) (data : PyData)
    (days : Int) : List TempRecord :=
  data.temperatures.filter (fun t => decide (today - days ≤ t.datetime.day))

/-- The bucketing `for`-loop of `calculate_temperature_shift`
(cycle_analyzer.py:72-80): for each windowed reading compute its cycle day
and append its Celsius value to the follicular bucket (`6 <= day <= 12`) or
the luteal bucket (`day >= 17`).  `if cycle_day:` is Python truthiness, so
a day of `0` would also be skipped (it cannot occur, see
`cycle_day_pos`). -/
def bucketLoop (cycle_starts : List Int) : List TempRecord → List ℚ × List ℚ
  | [] => ([], [])
  | t :: ts =>
    let rest := bucketLoop cycle_starts ts
    match _get_cycle_day_for_date t.datetime.day cycle_starts with
    | none => rest
    | some d =>
      if d = 0 then rest
      else if 6 ≤ d ∧ d ≤ 12 then (t.temperature_celsius :: rest.1, rest.2)
      else if 17 ≤ d then (rest.1, t.temperature_celsius :: rest.2)
      else rest

/-- Result record of `calculate_temperature_shift`. -/
structure ShiftResult where
  follicular_avg : ℚ
  luteal_avg : ℚ
  shift_celsius : ℚ
  shift_fahrenheit : ℚ
deriving DecidableEq

/-- `CycleAnalyzer.calculate_temperature_shift` (cycle_analyzer.py:57-97).
The `try/except` of the source can only fire on malformed date strings,
which the typed embedding excludes, so it is not modelled. -/
def calculate_temperature_shift (today : Int) (data : PyData) :
    Option ShiftResult :=
  if data.temperatures.length < 10 then none
  else
    let recent_temps := _get_recent_cycle_temperatures today data 35
    if recent_temps.length < 10 then none
    else
      let buckets := bucketLoop data.cycle_starts recent_temps
      if 3 ≤ buckets.1.length ∧ 3 ≤ buckets.2.length then
        let follicular_avg := pyMean buckets.1
        let luteal_avg := pyMean buckets.2
        let shift := luteal_avg - follicular_avg
        some ⟨follicular_avg, luteal_avg, shift, shift * 9 / 5⟩
      else none

/-- The consecutive-difference `for`-loop of `_calculate_cycle_lengths`
(cycle_analyzer.py:257-261), run on the sorted date list: append
`dates[i+1] - dates[i]` when it lies in `[15, 45]`. -/
def lengthsLoop : List Int → List Int
  | a :: b :: rest =>
    (if 15 ≤ b - a ∧ b - a ≤ 45 then [b - a] else []) ++ lengthsLoop (b :: rest)
  | _ => []

/-- `CycleAnalyzer._calculate_cycle_lengths` (cycle_analyzer.py:249-263). -/
def _calculate_cycle_lengths (cycle_starts : List Int) : List Int :=
  if cycle_starts.length < 2 then []
  else lengthsLoop (List.insertionSort (fun a b => a ≤ b) cycle_starts)

/-- Result record of `predict_cycle_events`. -/
structure Predictions where
  next_period : Option Int
  next_ovulation : Option Int
  confidence : String
deriving DecidableEq

/-- `CycleAnalyzer.predict_cycle_events` (cycle_analyzer.py:99-134): with
fewer than 2 cycle starts, or no valid cycle lengths, return the all-None
defaults with confidence "low"; otherwise add `int(mean(cycle_lengths))`
days to the latest start, subtract 14 days for the ovulation estimate, and
report confidence "high" iff at least 3 valid lengths exist. -/
def predict_cycle_events (data : PyData) : Predictions :=
  if data.cycle_starts.length < 2 then ⟨none, none, "low"⟩
  else
    let cycle_lengths := _calculate_cycle_lengths data.cycle_starts
    if cycle_lengths.isEmpty then ⟨none, none, "low"⟩
    else
      let avg_cycle_length := pyMean (cycle_lengths.map (fun (n : Int) => (n : ℚ)))
      let last_cycle_start := pyMax data.cycle_starts
      let next_period := last_cycle_start + pyInt avg_cycle_length
      let next_ovulation := next_period - 14
      ⟨some next_period, some next_ovulation,
        if 3 ≤ cycle_lengths.length then "high" else "medium"⟩

/-- Closed-form least-squares slope: `np.polyfit(x, temps, 1)[0]` for
`x = range(len(temps))` (cycle_analyzer.py:217-218).  `numpy.polyfit` with
`deg=1` returns the coefficients of the degree-1 polynomial minimising the
sum of squared residuals; for at least two sample points this minimiser is
unique and its slope is given by the normal equations,
`(n*Σxy - Σx*Σy) / (n*Σx² - (Σx)²)`.  Theorem `lstsqSlope_is_least_squares`
below certifies this closed form against the least-squares objective. -/
def lstsqSlope (ys : List ℚ) : ℚ :=
  let n : ℚ := ys.length
  let xs := (List.range ys.length).map (fun (i : Nat) => (i : ℚ))
  (n * (List.zipWith (fun a b => a * b) xs ys).sum - xs.sum * ys.sum) /
    (n * (xs.map (fun x => x * x)).sum - xs.sum * xs.sum)

/-- Result record of `analyze_temperature_trends`. -/
structure TrendResult where
  trend_direction : String
  consistency_score : ℝ
  analysis_text : String

/-- `CycleAnalyzer.analyze_temperature_trends` (cycle_analyzer.py:204-247):
with fewer than 7 readings return None; otherwise sort the readings
chronologically, keep the last 30, fit a least-squares line over
(0-based index, Celsius) pairs, classify the slope against ±0.01, and score
consistency as `max(0, 10 - stdev*10)`. -/
noncomputable def analyze_temperature_trends (data : PyData) :
    Option TrendResult :=
  if data.temperatures.length < 7 then none
  else
    let recent_temps := pySliceLast 30 (List.insertionSort tempLe data.temperatures)
    let temps := recent_temps.map (fun t => t.temperature_celsius)
    let slope := lstsqSlope temps
    let trend_direction :=
      if slope > 1/100 then "Increasing"
      else if slope < -(1/100) then "Decreasing"
      else "Stable"
    let consistency_score : ℝ :=
      max 0 (10 - Real.sqrt (pyVariance temps) * 10)
    let analysis :=
      if 8 ≤ consistency_score then
        "Your temperature readings show excellent consistency."
      else if 6 ≤ consistency_score then
        "Your temperature readings show good consistency."
      else if 4 ≤ consistency_score then
        "Your temperature readings show moderate consistency."
      else
        "Consider taking temperature at the same time daily for better consistency."
    some ⟨trend_direction, consistency_score, analysis⟩

end CycleAnalyzer

namespace GraphUtils

/-- `GraphUtils._determine_cycle_phase` (graph_utils.py:300-309), a
verbatim copy of the analyzer's classifier. -/
def _determine_cycle_phase (cycle_day : Int) : String :=
  if cycle_day ≤ 5 then "Menstrual"
  else if cycle_day ≤ 12 then "Follicular"
  else if cycle_day ≤ 16 then "Ovulatory"
  else "Luteal"

/-- `GraphUtils._get_cycle_day_for_date` (graph_utils.py:311-326): unlike
the other two copies it receives an already-parsed `List[date]` and does
NOT sort it before running the scan loop; its caller at graph_utils.py:131
passes the parsed `cycle_starts` in stored order. -/
def _get_cycle_day_for_date (target_date : Int) (cycle_starts : List Int) :
    Option Int :=
  if cycle_starts.isEmpty then none
  else
    match findStartLoop target_date cycle_starts none with
    | some s => some (target_date - s + 1)
    | none => none

end GraphUtils

namespace DataManager

/-- `DataManager._get_cycle_day_for_date` (data_manager.py:88-108), a
verbatim copy of the analyzer's indexer: parse, sort ascending, scan. -/
def _get_cycle_day_for_date (target_date : Int) (cycle_starts : List Int) :
    Option Int :=
  if cycle_starts.isEmpty then none
  else
    match findStartLoop target_date
        (List.insertionSort (fun a b => a ≤ b) cycle_starts) none with
    | some s => some (target_date - s + 1)
    | none => none

end DataManager

namespace SQLiteStorage

/-- The SQLite database state: the rows of the three tables in insertion
order.  The `id` and `created_at` columns are never read back by
`load_data` and are omitted. -/
structure DB where
  temperatures : List TempRecord
  notes : List Note
  cycle_starts : List Int
deriving DecidableEq

/-- `SQLiteStorage.save_data` (sqlite_storage.py:105-141): delete every row
of the three tables, then insert the given collections row by row in list
order. -/
def save_data (_db : DB) (data : PyData) : DB :=
  ⟨data.temperatures, data.notes, data.cycle_starts⟩

/-- `SQLiteStorage.load_data` (sqlite_storage.py:62-103): read the three
tables back with `ORDER BY datetime` / `ORDER BY date` / `ORDER BY
start_date`.  The columns are ISO-8601 TEXT, whose lexicographic SQL
ordering is the chronological order modelled by `tempLe` / `noteLe` / `≤`;
SQLite leaves the relative order of equal keys unspecified, modelled here
as the stable sort of the stored row order. -/
def load_data (db : DB) : PyData :=
  ⟨List.insertionSort tempLe db.temperatures,
   List.insertionSort noteLe db.notes,
   List.insertionSort (fun a b => a ≤ b) db.cycle_starts⟩

end SQLiteStorage

/-! ## Helper lemmas -/

/-- On a `≤`-sorted list the scan loop either leaves the accumulator (when no
element is `<= target`) or returns the greatest element that is `<= target`. -/
theorem findStartLoop_char (t : Int) (l : List Int) :
    List.Sorted (fun a b => a ≤ b) l → ∀ acc : Option Int,
      (findStartLoop t l acc = acc ∧ l.filter (fun d => decide (d ≤ t)) = []) ∨
      (∃ m, findStartLoop t l acc = some m ∧ m ∈ l ∧ m ≤ t ∧
        ∀ x ∈ l, x ≤ t → x ≤ m) := by
  induction l with
  | nil => exact fun _ acc => Or.inl ⟨rfl, rfl⟩
  | cons d ds ih =>
    intro hs acc
    rw [List.sorted_cons] at hs
    obtain ⟨hd, hds⟩ := hs
    by_cases hdt : d ≤ t
    · rcases ih hds (some d) with ⟨hres, hfil⟩ | ⟨m, hres, hm, hmt, hmax⟩
      · refine Or.inr ⟨d, ?_, List.mem_cons_self d ds, hdt, ?_⟩
        · simpa [findStartLoop, hdt] using hres
        · intro x hx hxt
          rcases List.mem_cons.mp hx with rfl | hx
          · exact le_refl x
          · have hmem : x ∈ ds.filter (fun d => decide (d ≤ t)) :=
              List.mem_filter.mpr ⟨hx, by simpa using hxt⟩
            rw [hfil] at hmem
            exact absurd hmem (by simp)
      · refine Or.inr ⟨m, ?_, List.mem_cons_of_mem d hm, hmt, ?_⟩
        · simpa [findStartLoop, hdt] using hres
        · intro x hx hxt
          rcases List.mem_cons.mp hx with rfl | hx
          · exact hd m hm
          · exact hmax x hx hxt
    · refine Or.inl ⟨by simp [findStartLoop, hdt], ?_⟩
      rw [List.filter_cons_of_neg (by simpa using hdt)]
      rw [List.filter_eq_nil_iff]
      intro x hx
      have hgt : t < d := lt_of_not_le hdt
      have : t < x := lt_of_lt_of_le hgt (hd x hx)
      simpa using not_le.mpr this

/-- The scan loop never gives out a start later than the target (provided the
accumulator does not hold one). -/
theorem findStartLoop_le (t : Int) (l : List Int) :
    ∀ acc : Option Int, (∀ x, acc = some x → x ≤ t) →
      ∀ s, findStartLoop t l acc = some s → s ≤ t := by
  induction l with
  | nil => exact fun acc hacc s hs => hacc s hs
  | cons d ds ih =>
    intro acc hacc s hs
    by_cases hdt : d ≤ t
    · refine ih (some d) ?_ s (by simpa [findStartLoop, hdt] using hs)
      intro x hx
      obtain rfl : d = x := by simpa using hx
      exact hdt
    · exact hacc s (by simpa [findStartLoop, hdt] using hs)

/-- Any cycle day the indexer produces is at least 1 (day 1 is the start date
itself). -/
theorem cycle_day_pos (t : Int) (cs : List Int) (d : Int)
    (h : CycleAnalyzer._get_cycle_day_for_date t cs = some d) : 1 ≤ d := by
  unfold CycleAnalyzer._get_cycle_day_for_date at h
  by_cases hcs : cs.isEmpty
  · simp [hcs] at h
  · rw [if_neg hcs] at h
    rcases hres : findStartLoop t (List.insertionSort (fun a b => a ≤ b) cs) none with _ | s
    · rw [hres] at h; exact absurd h (by simp)
    · rw [hres] at h
      have hst : s ≤ t :=
        findStartLoop_le t (List.insertionSort (fun a b => a ≤ b) cs) none
          (by intro x hx; exact absurd hx (by simp)) s hres
      have hd2 : t - s + 1 = d := by simpa using h
      omega

/-- The consecutive-difference loop computes exactly the filtered list of
consecutive differences. -/
theorem lengthsLoop_eq (l : List Int) :
    CycleAnalyzer.lengthsLoop l =
      (List.zipWith (fun a b => b - a) l l.tail).filter
        (fun L => decide (15 ≤ L) && decide (L ≤ 45)) := by
  induction l with
  | nil => rfl
  | cons a tail ih =>
    cases tail with
    | nil => rfl
    | cons b rest =>
      rw [CycleAnalyzer.lengthsLoop]
      rw [ih]
      simp only [List.tail_cons, List.zipWith_cons_cons, List.filter_cons]
      by_cases h : 15 ≤ b - a ∧ b - a ≤ 45
      · rw [if_pos h]
        have : (decide (15 ≤ b - a) && decide (b - a ≤ 45)) = true := by
          simp [h.1, h.2]
        rw [this]
        rfl
      · rw [if_neg h]
        have : (decide (15 ≤ b - a) && decide (b - a ≤ 45)) = false := by
          rcases not_and_or.mp h with h1 | h1 <;> simp [h1]
        rw [this]
        rfl

/-! ## Claims -/

/-- Claim C2: the phase classifier is a total function on integers returning
exactly one of the four phase labels, with boundaries: day <= 5 Menstrual,
6 <= day <= 12 Follicular, 13 <= day <= 16 Ovulatory, day >= 17 Luteal
(the iff-characterisations below pin each label to exactly its day range,
hence exactly one label is returned for every integer day). -/
theorem c2_phase_classifier : ∀ day : Int,
    (CycleAnalyzer._determine_cycle_phase day = "Menstrual" ↔ day ≤ 5) ∧
    (CycleAnalyzer._determine_cycle_phase day = "Follicular" ↔ 6 ≤ day ∧ day ≤ 12) ∧
    (CycleAnalyzer._determine_cycle_phase day = "Ovulatory" ↔ 13 ≤ day ∧ day ≤ 16) ∧
    (CycleAnalyzer._determine_cycle_phase day = "Luteal" ↔ 17 ≤ day) := by
  intro day
  unfold CycleAnalyzer._determine_cycle_phase
  split_ifs with h1 h2 h3 <;> refine ⟨?_, ?_, ?_, ?_⟩ <;> simp <;> omega

/-- Claim C6: `_calculate_cycle_lengths` sorts the starts ascending, takes
consecutive differences in chronological order, and keeps exactly those in
[15, 45], omitting the rest; a pair 10 or 46 days apart is excluded, a pair
exactly 15 or 45 days apart is included. -/
theorem c6_cycle_length_filtering :
    (∀ cycle_starts : List Int,
      CycleAnalyzer._calculate_cycle_lengths cycle_starts =
        (List.zipWith (fun a b => b - a)
            (List.insertionSort (fun a b => a ≤ b) cycle_starts)
            (List.insertionSort (fun a b => a ≤ b) cycle_starts).tail).filter
          (fun L => decide (15 ≤ L) && decide (L ≤ 45))) ∧
    CycleAnalyzer._calculate_cycle_lengths [0, 10] = [] ∧
    CycleAnalyzer._calculate_cycle_lengths [0, 46] = [] ∧
    CycleAnalyzer._calculate_cycle_lengths [0, 15] = [15] ∧
    CycleAnalyzer._calculate_cycle_lengths [0, 45] = [45] := by
  refine ⟨?_, by decide, by decide, by decide, by decide⟩
  intro cs
  unfold CycleAnalyzer._calculate_cycle_lengths
  by_cases h : cs.length < 2
  · rw [if_pos h]
    match cs, h with
    | [], _ => rfl
    | [a], _ => rfl
  · rw [if_neg h]
    exact lengthsLoop_eq _

/-- Claim C8 (counterexample): the graphing copy of the day indexer does not
sort its input, so on an unsorted cycle-start list it can disagree with the
analyzer's (and the data manager's) indexer: with starts {ordinals 10, 20}
listed as [20, 10] and target 15, the graphing copy returns nothing while
the analyzer returns day 6. -/
theorem c8_counterexample :
    GraphUtils._get_cycle_day_for_date 15 [20, 10] ≠
      CycleAnalyzer._get_cycle_day_for_date 15 [20, 10] := by decide

/-- Claim C8 (amended): the analyzer's and the data manager's indexers agree
on every input (their code is identical); the graphing indexer agrees with
them whenever the date list it is handed is sorted ascending — but not in
general, see the counterexample. -/
theorem c8_day_indexers_agree : ∀ (target : Int) (cycle_starts : List Int),
    CycleAnalyzer._get_cycle_day_for_date target cycle_starts =
      DataManager._get_cycle_day_for_date target cycle_starts ∧
    (List.Sorted (fun a b => a ≤ b) cycle_starts →
      GraphUtils._get_cycle_day_for_date target cycle_starts =
        CycleAnalyzer._get_cycle_day_for_date target cycle_starts) := by
  intro t cs
  refine ⟨rfl, fun hs => ?_⟩
  unfold GraphUtils._get_cycle_day_for_date CycleAnalyzer._get_cycle_day_for_date
  rw [List.Sorted.insertionSort_eq hs]

/-- Witness for the amended C8: a concrete sorted list on which the graphing
and analyzer indexers coincide. -/
theorem c8_witness :
    GraphUtils._get_cycle_day_for_date 15 [10, 20] =
      CycleAnalyzer._get_cycle_day_for_date 15 [10, 20] :=
  (c8_day_indexers_agree 15 [10, 20]).2 (by decide)

/-- Claim C5 (counterexample): on cycle starts 2024-01-01, 2024-01-29,
2024-02-25 the code does NOT predict next_period = 2024-03-24.  2024 is a
leap year, so 2024-02-25 + 27 days is 2024-03-23 (the spec's example
arithmetic assumed a 28-day February). -/
theorem c5_counterexample :
    (CycleAnalyzer.predict_cycle_events
        ⟨[], [], [mkDate 2024 1 1, mkDate 2024 1 29, mkDate 2024 2 25]⟩).next_period ≠
      some (mkDate 2024 3 24) := by
  have e1 : mkDate 2024 1 1 = 738886 := by decide
  have e2 : mkDate 2024 1 29 = 738914 := by decide
  have e3 : mkDate 2024 2 25 = 738941 := by decide
  have e4 : mkDate 2024 3 24 = 738969 := by decide
  rw [e1, e2, e3, e4]
  have h1 : CycleAnalyzer._calculate_cycle_lengths [(738886 : Int), 738914, 738941] =
      [28, 27] := by decide
  have h2 : pyMax [(738886 : Int), 738914, 738941] = 738941 := by decide
  norm_num [CycleAnalyzer.predict_cycle_events, h1, h2, pyMean, pyInt]

/-- Claim C5 (amended): on cycle starts 2024-01-01, 2024-01-29, 2024-02-25
(valid lengths 28 and 27, mean 27.5, truncated to 27) the code predicts
next_period = 2024-03-23, next_ovulation = 2024-03-09, confidence
"medium". -/
theorem c5_prediction_concrete :
    CycleAnalyzer.predict_cycle_events
        ⟨[], [], [mkDate 2024 1 1, mkDate 2024 1 29, mkDate 2024 2 25]⟩ =
      ⟨some (mkDate 2024 3 23), some (mkDate 2024 3 9), "medium"⟩ := by
  have e1 : mkDate 2024 1 1 = 738886 := by decide
  have e2 : mkDate 2024 1 29 = 738914 := by decide
  have e3 : mkDate 2024 2 25 = 738941 := by decide
  have e4 : mkDate 2024 3 23 = 738968 := by decide
  have e5 : mkDate 2024 3 9 = 738954 := by decide
  rw [e1, e2, e3, e4, e5]
  have h1 : CycleAnalyzer._calculate_cycle_lengths [(738886 : Int), 738914, 738941] =
      [28, 27] := by decide
  have h2 : pyMax [(738886 : Int), 738914, 738941] = 738941 := by decide
  norm_num [CycleAnalyzer.predict_cycle_events, h1, h2, pyMean, pyInt]

/-- Claim C1: the cycle-day indexer returns nothing exactly when no recorded
start is on or before the target date (in particular for an empty
collection, with no error), and otherwise returns
`(target - latest start <= target) + 1`, the latest such start being the
maximum of the starts that are `<= target`; day 1 is the start date
itself (take `m = target`). -/
theorem c1_cycle_day_indexer : ∀ (target : Int) (cycle_starts : List Int),
    (CycleAnalyzer._get_cycle_day_for_date target cycle_starts = none ↔
      ∀ s ∈ cycle_starts, target < s) ∧
    (∀ m : Int,
      (cycle_starts.filter (fun s => decide (s ≤ target))).maximum = (m : WithBot Int) →
      CycleAnalyzer._get_cycle_day_for_date target cycle_starts =
        some (target - m + 1)) := by
  intro t cs
  have hperm : (List.insertionSort (fun a b => a ≤ b) cs).Perm cs :=
    List.perm_insertionSort _ cs
  have hsorted : List.Sorted (fun a b => a ≤ b)
      (List.insertionSort (fun a b => a ≤ b) cs) :=
    List.sorted_insertionSort _ cs
  unfold CycleAnalyzer._get_cycle_day_for_date
  constructor
  · constructor
    · intro h s hs
      by_contra hnle
      have hst : s ≤ t := not_lt.mp hnle
      have hne : cs.isEmpty = false := by
        cases cs
        · exact absurd hs (by simp)
        · rfl
      rw [if_neg (by simp [hne])] at h
      rcases findStartLoop_char t _ hsorted none with ⟨hres, hfil⟩ | ⟨m, hres, _, _, _⟩
      · have hsl : s ∈ List.insertionSort (fun a b => a ≤ b) cs := hperm.mem_iff.mpr hs
        have : s ∈ (List.insertionSort (fun a b => a ≤ b) cs).filter
            (fun d => decide (d ≤ t)) :=
          List.mem_filter.mpr ⟨hsl, by simpa using hst⟩
        rw [hfil] at this
        exact absurd this (by simp)
      · rw [hres] at h
        exact absurd h (by simp)
    · intro hall
      by_cases hcs : cs.isEmpty
      · rw [if_pos hcs]
      · rw [if_neg hcs]
        rcases findStartLoop_char t _ hsorted none with ⟨hres, _⟩ | ⟨m, hres, hm, hmt, _⟩
        · rw [hres]
        · exfalso
          exact absurd hmt (not_le.mpr (hall m (hperm.mem_iff.mp hm)))
  · intro m hmax
    obtain ⟨hmem, hbound⟩ := List.maximum_eq_coe_iff.mp hmax
    have hmcs : m ∈ cs := (List.mem_filter.mp hmem).1
    have hmt : m ≤ t := by simpa using (List.mem_filter.mp hmem).2
    have hne : cs.isEmpty = false := by
      cases cs
      · exact absurd hmcs (by simp)
      · rfl
    rw [if_neg (by simp [hne])]
    rcases findStartLoop_char t _ hsorted none with ⟨_, hfil⟩ | ⟨m2, hres, hm2, hm2t, hmax2⟩
    · exfalso
      have hml : m ∈ List.insertionSort (fun a b => a ≤ b) cs := hperm.mem_iff.mpr hmcs
      have : m ∈ (List.insertionSort (fun a b => a ≤ b) cs).filter
          (fun d => decide (d ≤ t)) :=
        List.mem_filter.mpr ⟨hml, by simpa using hmt⟩
      rw [hfil] at this
      exact absurd this (by simp)
    · have hm2cs : m2 ∈ cs := hperm.mem_iff.mp hm2
      have hm2f : m2 ∈ cs.filter (fun s => decide (s ≤ t)) :=
        List.mem_filter.mpr ⟨hm2cs, by simpa using hm2t⟩
      have heq : m2 = m :=
        le_antisymm (hbound m2 hm2f)
          (hmax2 m (hperm.mem_iff.mpr hmcs) hmt)
      rw [hres, heq]

/-- Witness for C1: with starts {3, 8, 20} the indexer maps target 10 to day
3 (latest start 8), maps target 2 (before any start) to nothing, and maps
any target to nothing when the collection is empty. -/
theorem c1_witness :
    CycleAnalyzer._get_cycle_day_for_date 10 [3, 8, 20] = some 3 ∧
    CycleAnalyzer._get_cycle_day_for_date 2 [3, 8, 20] = none ∧
    CycleAnalyzer._get_cycle_day_for_date 5 [] = none :=
  ⟨(c1_cycle_day_indexer 10 [3, 8, 20]).2 8 (by decide),
   (c1_cycle_day_indexer 2 [3, 8, 20]).1.mpr (by decide),
   (c1_cycle_day_indexer 5 []).1.mpr (by decide)⟩

/-- Claim C9: saving a dataset and reloading it yields the same three
collections: temperatures as the same multiset, returned chronologically
sorted; notes and cycle starts as the same multisets (order-insensitive);
all fields and duplicates preserved (list permutation preserves records
exactly). -/
theorem c9_save_load_roundtrip : ∀ (db : SQLiteStorage.DB) (data : PyData),
    ((SQLiteStorage.load_data (SQLiteStorage.save_data db data)).temperatures).Perm
        data.temperatures ∧
    List.Sorted tempLe
      (SQLiteStorage.load_data (SQLiteStorage.save_data db data)).temperatures ∧
    ((SQLiteStorage.load_data (SQLiteStorage.save_data db data)).notes).Perm
        data.notes ∧
    ((SQLiteStorage.load_data (SQLiteStorage.save_data db data)).cycle_starts).Perm
        data.cycle_starts :=
  fun _db _data =>
    ⟨List.perm_insertionSort _ _, List.sorted_insertionSort _ _,
     List.perm_insertionSort _ _, List.perm_insertionSort _ _⟩

/-- Seed-or-member bound for a `max` fold. -/
theorem le_foldl_max : ∀ (as : List Int) (a x : Int),
    x ≤ a ∨ x ∈ as → x ≤ as.foldl max a := by
  intro as
  induction as with
  | nil =>
    intro a x h
    rcases h with h | h
    · exact h
    · exact absurd h (by simp)
  | cons b bs ih =>
    intro a x h
    rcases h with h | h
    · exact ih (max a b) x (Or.inl (le_trans h (le_max_left a b)))
    · rcases List.mem_cons.mp h with rfl | h
      · exact ih (max a x) x (Or.inl (le_max_right a x))
      · exact ih (max a b) x (Or.inr h)

/-- A `max` fold returns the seed or a member. -/
theorem foldl_max_mem : ∀ (as : List Int) (a : Int), as.foldl max a ∈ a :: as := by
  intro as
  induction as with
  | nil => intro a; simp
  | cons b bs ih =>
    intro a
    have h := ih (max a b)
    rcases List.mem_cons.mp h with heq | hm
    · rcases max_choice a b with hab | hab
      · exact List.mem_cons.mpr (Or.inl (heq.trans hab))
      · exact List.mem_cons.mpr (Or.inr (List.mem_cons.mpr (Or.inl (heq.trans hab))))
    · exact List.mem_cons.mpr (Or.inr (List.mem_cons.mpr (Or.inr hm)))

/-- Python `max` agrees with `List.maximum` on nonempty lists. -/
theorem pyMax_eq_of_maximum (l : List Int) (m : Int)
    (h : l.maximum = (m : WithBot Int)) : pyMax l = m := by
  obtain ⟨hmem, hbound⟩ := List.maximum_eq_coe_iff.mp h
  match l with
  | [] => exact absurd hmem (by simp)
  | a :: as =>
    have h1 : pyMax (a :: as) ∈ a :: as := foldl_max_mem as a
    have h2 : m ≤ pyMax (a :: as) := by
      rcases List.mem_cons.mp hmem with rfl | hm
      · exact le_foldl_max as m m (Or.inl le_rfl)
      · exact le_foldl_max as a m (Or.inr hm)
    exact le_antisymm (hbound _ h1) h2

/-- Every length the cycle-length helper returns lies in [15, 45]. -/
theorem mem_calculate_cycle_lengths (cs : List Int) (L : Int)
    (h : L ∈ CycleAnalyzer._calculate_cycle_lengths cs) : 15 ≤ L ∧ L ≤ 45 := by
  unfold CycleAnalyzer._calculate_cycle_lengths at h
  by_cases hlen : cs.length < 2
  · rw [if_pos hlen] at h
    exact absurd h (by simp)
  · rw [if_neg hlen, lengthsLoop_eq] at h
    have := (List.mem_filter.mp h).2
    constructor
    · have h15 := (Bool.and_eq_true _ _).mp this |>.1
      simpa using h15
    · have h45 := (Bool.and_eq_true _ _).mp this |>.2
      simpa using h45

/-- Mean of a list of integers all at least 15 is not negative. -/
theorem pyMean_cast_not_neg (l : List Int) (hpos : ∀ L ∈ l, (15 : Int) ≤ L) :
    ¬ pyMean (l.map (fun (n : Int) => (n : ℚ))) < 0 := by
  apply not_lt.mpr
  unfold pyMean
  apply div_nonneg
  · apply List.sum_nonneg
    intro x hx
    rw [List.mem_map] at hx
    obtain ⟨L, hL, hLeq⟩ := hx
    have h15 := hpos L hL
    rw [← hLeq]
    have hq : (15 : ℚ) ≤ (L : ℚ) := by exact_mod_cast h15
    linarith
  · exact_mod_cast Nat.zero_le _

/-- Claim C4: `predict_cycle_events` returns the all-nothing "low" record
when there are fewer than 2 cycle starts or no valid cycle lengths, and
otherwise predicts `next_period` = latest start + floor of the mean valid
length, `next_ovulation` = `next_period` - 14 days, with confidence "high"
iff at least 3 valid lengths contributed, else "medium". -/
theorem c4_predict_cycle_events : ∀ data : PyData,
    (data.cycle_starts.length < 2 →
      CycleAnalyzer.predict_cycle_events data = ⟨none, none, "low"⟩) ∧
    (CycleAnalyzer._calculate_cycle_lengths data.cycle_starts = [] →
      CycleAnalyzer.predict_cycle_events data = ⟨none, none, "low"⟩) ∧
    (∀ m : Int, data.cycle_starts.maximum = (m : WithBot Int) →
      2 ≤ data.cycle_starts.length →
      CycleAnalyzer._calculate_cycle_lengths data.cycle_starts ≠ [] →
      CycleAnalyzer.predict_cycle_events data =
        ⟨some (m + ⌊pyMean ((CycleAnalyzer._calculate_cycle_lengths
              data.cycle_starts).map (fun (n : Int) => (n : ℚ)))⌋),
         some (m + ⌊pyMean ((CycleAnalyzer._calculate_cycle_lengths
              data.cycle_starts).map (fun (n : Int) => (n : ℚ)))⌋ - 14),
         if 3 ≤ (CycleAnalyzer._calculate_cycle_lengths data.cycle_starts).length
           then "high" else "medium"⟩) := by
  intro data
  refine ⟨?_, ?_, ?_⟩
  · intro h
    unfold CycleAnalyzer.predict_cycle_events
    rw [if_pos h]
  · intro h
    unfold CycleAnalyzer.predict_cycle_events
    by_cases hlen : data.cycle_starts.length < 2
    · rw [if_pos hlen]
    · rw [if_neg hlen]
      simp only [h, List.isEmpty_nil, if_true]
  · intro m hmax hlen hne
    unfold CycleAnalyzer.predict_cycle_events
    rw [if_neg (not_lt.mpr hlen)]
    have hie : (CycleAnalyzer._calculate_cycle_lengths data.cycle_starts).isEmpty
        = false := by
      rcases hK : CycleAnalyzer._calculate_cycle_lengths data.cycle_starts with _ | ⟨x, xs⟩
      · exact absurd hK hne
      · rfl
    simp only [hie, Bool.false_eq_true, if_false]
    have hmean_nonneg : ¬ pyMean ((CycleAnalyzer._calculate_cycle_lengths
        data.cycle_starts).map (fun (n : Int) => (n : ℚ))) < 0 :=
      pyMean_cast_not_neg _ (fun L hL => (mem_calculate_cycle_lengths _ _ hL).1)
    rw [pyMax_eq_of_maximum _ _ hmax]
    unfold pyInt
    rw [if_neg hmean_nonneg]

/-- Witness for C4: starts {0, 28, 56, 84} give three valid 28-day lengths,
so the prediction is day 112 for the next period, day 98 for ovulation,
confidence "high". -/
theorem c4_witness :
    CycleAnalyzer.predict_cycle_events ⟨[], [], [0, 28, 56, 84]⟩ =
      ⟨some 112, some 98, "high"⟩ := by
  have happ := (c4_predict_cycle_events ⟨[], [], [0, 28, 56, 84]⟩).2.2 84
    (by decide) (by decide) (by decide)
  rw [happ]
  have h1 : CycleAnalyzer._calculate_cycle_lengths [(0 : Int), 28, 56, 84] =
      [28, 28, 28] := by decide
  rw [h1]
  norm_num [pyMean]

/-- The bucketing loop computes exactly the follicular/luteal filters of its
input, in order, projected to Celsius values. -/
theorem bucketLoop_eq (cs : List Int) (ts : List TempRecord) :
    CycleAnalyzer.bucketLoop cs ts =
      ((ts.filter (fun t =>
          match CycleAnalyzer._get_cycle_day_for_date t.datetime.day cs with
          | some d => decide (6 ≤ d) && decide (d ≤ 12)
          | none => false)).map (fun t => t.temperature_celsius),
       (ts.filter (fun t =>
          match CycleAnalyzer._get_cycle_day_for_date t.datetime.day cs with
          | some d => decide (17 ≤ d)
          | none => false)).map (fun t => t.temperature_celsius)) := by
  induction ts with
  | nil => rfl
  | cons t ts ih =>
    rw [CycleAnalyzer.bucketLoop, ih]
    cases hday : CycleAnalyzer._get_cycle_day_for_date t.datetime.day cs with
    | none => simp [List.filter_cons, hday]
    | some d =>
      have hd1 : 1 ≤ d := cycle_day_pos _ _ _ hday
      have hd0 : ¬ d = 0 := by omega
      by_cases h612 : 6 ≤ d ∧ d ≤ 12
      · have h17 : ¬ 17 ≤ d := by omega
        simp [List.filter_cons, hday, hd0, h612, h612.1, h612.2, h17]
      · by_cases h17 : 17 ≤ d
        · have h12 : ¬ (6 ≤ d ∧ d ≤ 12) := by omega
          simp [List.filter_cons, hday, hd0, h612, h17, h12]
        · simp [List.filter_cons, hday, hd0, h612, h17]

/-- Claim C3: `calculate_temperature_shift` returns nothing when there are
fewer than 10 readings in total, or fewer than 10 readings within the last
35 days, or fewer than 3 windowed readings in the follicular bucket (cycle
day in [6,12]), or fewer than 3 in the luteal bucket (cycle day >= 17);
when every threshold is met it returns the two bucket means and their
difference `shift_celsius = luteal_avg - follicular_avg`, with no
sign validation. -/
theorem c3_temperature_shift : ∀ (today : Int) (data : PyData)
    (recent : List TempRecord) (folli lute : List ℚ),
    recent = data.temperatures.filter
      (fun t => decide (today - 35 ≤ t.datetime.day)) →
    folli = (recent.filter (fun t =>
        match CycleAnalyzer._get_cycle_day_for_date t.datetime.day
            data.cycle_starts with
        | some d => decide (6 ≤ d) && decide (d ≤ 12)
        | none => false)).map (fun t => t.temperature_celsius) →
    lute = (recent.filter (fun t =>
        match CycleAnalyzer._get_cycle_day_for_date t.datetime.day
            data.cycle_starts with
        | some d => decide (17 ≤ d)
        | none => false)).map (fun t => t.temperature_celsius) →
    ((data.temperatures.length < 10 →
        CycleAnalyzer.calculate_temperature_shift today data = none) ∧
     (recent.length < 10 →
        CycleAnalyzer.calculate_temperature_shift today data = none) ∧
     (folli.length < 3 →
        CycleAnalyzer.calculate_temperature_shift today data = none) ∧
     (lute.length < 3 →
        CycleAnalyzer.calculate_temperature_shift today data = none) ∧
     (10 ≤ data.temperatures.length → 10 ≤ recent.length →
      3 ≤ folli.length → 3 ≤ lute.length →
        ∃ r : CycleAnalyzer.ShiftResult,
          CycleAnalyzer.calculate_temperature_shift today data = some r ∧
          r.follicular_avg = folli.sum / folli.length ∧
          r.luteal_avg = lute.sum / lute.length ∧
          r.shift_celsius = r.luteal_avg - r.follicular_avg)) := by
  intro today data recent folli lute hr hf hl
  have hrec : CycleAnalyzer._get_recent_cycle_temperatures today data 35 = recent := by
    rw [hr]; rfl
  have hbuck : CycleAnalyzer.bucketLoop data.cycle_starts recent = (folli, lute) := by
    rw [hf, hl, bucketLoop_eq]
  simp only [CycleAnalyzer.calculate_temperature_shift]
  rw [hrec, hbuck]
  dsimp only
  refine ⟨?_, ?_, ?_, ?_, ?_⟩
  · intro h
    rw [if_pos h]
  · intro h
    by_cases h10 : data.temperatures.length < 10
    · rw [if_pos h10]
    · rw [if_neg h10, if_pos h]
  · intro h
    by_cases h10 : data.temperatures.length < 10
    · rw [if_pos h10]
    · rw [if_neg h10]
      by_cases hr10 : recent.length < 10
      · rw [if_pos hr10]
      · rw [if_neg hr10, if_neg (by intro hc; exact absurd hc.1 (by omega))]
  · intro h
    by_cases h10 : data.temperatures.length < 10
    · rw [if_pos h10]
    · rw [if_neg h10]
      by_cases hr10 : recent.length < 10
      · rw [if_pos hr10]
      · rw [if_neg hr10, if_neg (by intro hc; exact absurd hc.2 (by omega))]
  · intro h10 hr10 hf3 hl3
    rw [if_neg (not_lt.mpr h10), if_neg (not_lt.mpr hr10), if_pos ⟨hf3, hl3⟩]
    exact ⟨_, rfl, rfl, rfl, rfl⟩

/-- Claim C10: whenever the shift estimator returns a result, its
`shift_fahrenheit` field equals `shift_celsius * 9/5` exactly (a
temperature-difference conversion, with no +32 offset). -/
theorem c10_shift_fahrenheit : ∀ (today : Int) (data : PyData)
    (r : CycleAnalyzer.ShiftResult),
    CycleAnalyzer.calculate_temperature_shift today data = some r →
    r.shift_fahrenheit = r.shift_celsius * 9 / 5 := by
  intro today data r h
  simp only [CycleAnalyzer.calculate_temperature_shift] at h
  split_ifs at h
  · obtain rfl : CycleAnalyzer.ShiftResult.mk _ _ _ _ = r := Option.some.inj h
    rfl

/-- Witness for C3: with cycle start at ordinal 70 and today = 100, ten
readings (five on cycle days 6-10 at 36.5, five on days 17-21 at 36.9)
produce follicular mean 36.5, luteal mean 36.9 and shift 0.4; with only
nine readings the estimator returns nothing; with ten readings but only two
in the luteal bucket it returns nothing. -/
theorem c3_witness :
    (∃ r : CycleAnalyzer.ShiftResult,
      CycleAnalyzer.calculate_temperature_shift 100
          ⟨[⟨⟨75, 0⟩, 365/10⟩, ⟨⟨76, 0⟩, 365/10⟩, ⟨⟨77, 0⟩, 365/10⟩,
            ⟨⟨78, 0⟩, 365/10⟩, ⟨⟨79, 0⟩, 365/10⟩, ⟨⟨86, 0⟩, 369/10⟩,
            ⟨⟨87, 0⟩, 369/10⟩, ⟨⟨88, 0⟩, 369/10⟩, ⟨⟨89, 0⟩, 369/10⟩,
            ⟨⟨90, 0⟩, 369/10⟩], [], [70]⟩ = some r ∧
      r.follicular_avg = 365/10 ∧ r.luteal_avg = 369/10 ∧
      r.shift_celsius = 2/5) ∧
    CycleAnalyzer.calculate_temperature_shift 100
        ⟨[⟨⟨75, 0⟩, 365/10⟩, ⟨⟨76, 0⟩, 365/10⟩, ⟨⟨77, 0⟩, 365/10⟩,
          ⟨⟨78, 0⟩, 365/10⟩, ⟨⟨79, 0⟩, 365/10⟩, ⟨⟨86, 0⟩, 369/10⟩,
          ⟨⟨87, 0⟩, 369/10⟩, ⟨⟨88, 0⟩, 369/10⟩, ⟨⟨89, 0⟩, 369/10⟩],
         [], [70]⟩ = none ∧
    CycleAnalyzer.calculate_temperature_shift 100
        ⟨[⟨⟨75, 0⟩, 365/10⟩, ⟨⟨76, 0⟩, 365/10⟩, ⟨⟨77, 0⟩, 365/10⟩,
          ⟨⟨78, 0⟩, 365/10⟩, ⟨⟨79, 0⟩, 365/10⟩, ⟨⟨80, 0⟩, 365/10⟩,
          ⟨⟨82, 0⟩, 366/10⟩, ⟨⟨83, 0⟩, 366/10⟩, ⟨⟨86, 0⟩, 369/10⟩,
          ⟨⟨87, 0⟩, 369/10⟩], [], [70]⟩ = none := by
  refine ⟨?_, ?_, ?_⟩
  · obtain ⟨r, hr, h1, h2, h3⟩ :=
      (c3_temperature_shift 100
          ⟨[⟨⟨75, 0⟩, 365/10⟩, ⟨⟨76, 0⟩, 365/10⟩, ⟨⟨77, 0⟩, 365/10⟩,
            ⟨⟨78, 0⟩, 365/10⟩, ⟨⟨79, 0⟩, 365/10⟩, ⟨⟨86, 0⟩, 369/10⟩,
            ⟨⟨87, 0⟩, 369/10⟩, ⟨⟨88, 0⟩, 369/10⟩, ⟨⟨89, 0⟩, 369/10⟩,
            ⟨⟨90, 0⟩, 369/10⟩], [], [70]⟩
          [⟨⟨75, 0⟩, 365/10⟩, ⟨⟨76, 0⟩, 365/10⟩, ⟨⟨77, 0⟩, 365/10⟩,
            ⟨⟨78, 0⟩, 365/10⟩, ⟨⟨79, 0⟩, 365/10⟩, ⟨⟨86, 0⟩, 369/10⟩,
            ⟨⟨87, 0⟩, 369/10⟩, ⟨⟨88, 0⟩, 369/10⟩, ⟨⟨89, 0⟩, 369/10⟩,
            ⟨⟨90, 0⟩, 369/10⟩]
          [365/10, 365/10, 365/10, 365/10, 365/10]
          [369/10, 369/10, 369/10, 369/10, 369/10]
          rfl rfl rfl).2.2.2.2
        (by decide) (by decide) (by decide) (by decide)
    have hA : r.follicular_avg = 365/10 := by rw [h1]; norm_num
    have hB : r.luteal_avg = 369/10 := by rw [h2]; norm_num
    exact ⟨r, hr, hA, hB, by rw [h3, hA, hB]; norm_num⟩
  · exact (c3_temperature_shift 100
        ⟨[⟨⟨75, 0⟩, 365/10⟩, ⟨⟨76, 0⟩, 365/10⟩, ⟨⟨77, 0⟩, 365/10⟩,
          ⟨⟨78, 0⟩, 365/10⟩, ⟨⟨79, 0⟩, 365/10⟩, ⟨⟨86, 0⟩, 369/10⟩,
          ⟨⟨87, 0⟩, 369/10⟩, ⟨⟨88, 0⟩, 369/10⟩, ⟨⟨89, 0⟩, 369/10⟩], [], [70]⟩
        [⟨⟨75, 0⟩, 365/10⟩, ⟨⟨76, 0⟩, 365/10⟩, ⟨⟨77, 0⟩, 365/10⟩,
          ⟨⟨78, 0⟩, 365/10⟩, ⟨⟨79, 0⟩, 365/10⟩, ⟨⟨86, 0⟩, 369/10⟩,
          ⟨⟨87, 0⟩, 369/10⟩, ⟨⟨88, 0⟩, 369/10⟩, ⟨⟨89, 0⟩, 369/10⟩]
        [365/10, 365/10, 365/10, 365/10, 365/10]
        [369/10, 369/10, 369/10, 369/10]
        rfl rfl rfl).1 (by decide)
  · exact (c3_temperature_shift 100
        ⟨[⟨⟨75, 0⟩, 365/10⟩, ⟨⟨76, 0⟩, 365/10⟩, ⟨⟨77, 0⟩, 365/10⟩,
          ⟨⟨78, 0⟩, 365/10⟩, ⟨⟨79, 0⟩, 365/10⟩, ⟨⟨80, 0⟩, 365/10⟩,
          ⟨⟨82, 0⟩, 366/10⟩, ⟨⟨83, 0⟩, 366/10⟩, ⟨⟨86, 0⟩, 369/10⟩,
          ⟨⟨87, 0⟩, 369/10⟩], [], [70]⟩
        [⟨⟨75, 0⟩, 365/10⟩, ⟨⟨76, 0⟩, 365/10⟩, ⟨⟨77, 0⟩, 365/10⟩,
          ⟨⟨78, 0⟩, 365/10⟩, ⟨⟨79, 0⟩, 365/10⟩, ⟨⟨80, 0⟩, 365/10⟩,
          ⟨⟨82, 0⟩, 366/10⟩, ⟨⟨83, 0⟩, 366/10⟩, ⟨⟨86, 0⟩, 369/10⟩,
          ⟨⟨87, 0⟩, 369/10⟩]
        [365/10, 365/10, 365/10, 365/10, 365/10, 365/10]
        [369/10, 369/10]
        rfl rfl rfl).2.2.2.1 (by decide)

/-- Witness for C10: on the C3 sample dataset the returned record has
`shift_fahrenheit = shift_celsius * 9/5`. -/
theorem c10_witness :
    ∃ r : CycleAnalyzer.ShiftResult,
      CycleAnalyzer.calculate_temperature_shift 100
          ⟨[⟨⟨75, 0⟩, 365/10⟩, ⟨⟨76, 0⟩, 365/10⟩, ⟨⟨77, 0⟩, 365/10⟩,
            ⟨⟨78, 0⟩, 365/10⟩, ⟨⟨79, 0⟩, 365/10⟩, ⟨⟨86, 0⟩, 369/10⟩,
            ⟨⟨87, 0⟩, 369/10⟩, ⟨⟨88, 0⟩, 369/10⟩, ⟨⟨89, 0⟩, 369/10⟩,
            ⟨⟨90, 0⟩, 369/10⟩], [], [70]⟩ = some r ∧
      r.shift_fahrenheit = r.shift_celsius * 9 / 5 := by
  have h : CycleAnalyzer.calculate_temperature_shift 100
      ⟨[⟨⟨75, 0⟩, 365/10⟩, ⟨⟨76, 0⟩, 365/10⟩, ⟨⟨77, 0⟩, 365/10⟩,
        ⟨⟨78, 0⟩, 365/10⟩, ⟨⟨79, 0⟩, 365/10⟩, ⟨⟨86, 0⟩, 369/10⟩,
        ⟨⟨87, 0⟩, 369/10⟩, ⟨⟨88, 0⟩, 369/10⟩, ⟨⟨89, 0⟩, 369/10⟩,
        ⟨⟨90, 0⟩, 369/10⟩], [], [70]⟩ =
      some ⟨pyMean [365/10, 365/10, 365/10, 365/10, 365/10],
            pyMean [369/10, 369/10, 369/10, 369/10, 369/10],
            pyMean [369/10, 369/10, 369/10, 369/10, 369/10] -
              pyMean [365/10, 365/10, 365/10, 365/10, 365/10],
            (pyMean [369/10, 369/10, 369/10, 369/10, 369/10] -
              pyMean [365/10, 365/10, 365/10, 365/10, 365/10]) * 9 / 5⟩ := rfl
  exact ⟨_, h, c10_shift_fahrenheit 100 _ _ h⟩

/-- Python `l[-n:]` equals reversing, taking `n`, and reversing back. -/
theorem pySliceLast_eq (n : Nat) (l : List α) :
    pySliceLast n l = (l.reverse.take n).reverse := by
  have h : pySliceLast n l = l.rtake n := rfl
  rw [h, List.rtake_eq_reverse_take_reverse]

/-- Claim C7: with at least 7 readings, the trend analyzer looks at the
chronologically last 30 readings, classifies the least-squares slope over
(0-based index, Celsius) pairs as Increasing when > 0.01, Decreasing when
< -0.01, and Stable otherwise, and scores consistency as
`max(0, 10 - stdev * 10)` with the sample standard deviation of the
window. -/
theorem c7_trend_analyzer : ∀ (data : PyData) (temps : List ℚ),
    7 ≤ data.temperatures.length →
    temps = (((List.insertionSort tempLe data.temperatures).reverse.take
        30).reverse).map (fun t => t.temperature_celsius) →
    ∃ r : CycleAnalyzer.TrendResult,
      CycleAnalyzer.analyze_temperature_trends data = some r ∧
      (r.trend_direction = "Increasing" ↔
        1/100 < CycleAnalyzer.lstsqSlope temps) ∧
      (r.trend_direction = "Decreasing" ↔
        CycleAnalyzer.lstsqSlope temps < -(1/100)) ∧
      (r.trend_direction = "Stable" ↔
        (-(1/100) ≤ CycleAnalyzer.lstsqSlope temps ∧
         CycleAnalyzer.lstsqSlope temps ≤ 1/100)) ∧
      r.consistency_score =
        max 0 (10 - Real.sqrt (pyVariance temps) * 10) := by
  intro data temps hlen htemps
  have hslice : pySliceLast 30 (List.insertionSort tempLe data.temperatures) =
      ((List.insertionSort tempLe data.temperatures).reverse.take 30).reverse :=
    pySliceLast_eq 30 _
  simp only [CycleAnalyzer.analyze_temperature_trends]
  rw [if_neg (not_lt.mpr hlen), hslice, ← htemps]
  have key : ∀ s : ℚ,
      ((if s > 1/100 then "Increasing"
        else if s < -(1/100) then "Decreasing" else "Stable") = "Increasing" ↔
        1/100 < s) ∧
      ((if s > 1/100 then "Increasing"
        else if s < -(1/100) then "Decreasing" else "Stable") = "Decreasing" ↔
        s < -(1/100)) ∧
      ((if s > 1/100 then "Increasing"
        else if s < -(1/100) then "Decreasing" else "Stable") = "Stable" ↔
        (-(1/100) ≤ s ∧ s ≤ 1/100)) := by
    intro s
    by_cases h1 : s > 1/100
    · rw [if_pos h1]
      exact ⟨⟨fun _ => h1, fun _ => rfl⟩,
        ⟨fun hc => absurd hc (by decide),
         fun hc => (show False by linarith).elim⟩,
        ⟨fun hc => absurd hc (by decide),
         fun hc => (show False from absurd h1 (not_lt.mpr hc.2)).elim⟩⟩
    · by_cases h2 : s < -(1/100)
      · rw [if_neg h1, if_pos h2]
        exact ⟨⟨fun hc => absurd hc (by decide), fun hc => absurd hc h1⟩,
          ⟨fun _ => h2, fun _ => rfl⟩,
          ⟨fun hc => absurd hc (by decide),
           fun hc => (show False from absurd h2 (not_lt.mpr hc.1)).elim⟩⟩
      · rw [if_neg h1, if_neg h2]
        exact ⟨⟨fun hc => absurd hc (by decide), fun hc => absurd hc h1⟩,
          ⟨fun hc => absurd hc (by decide), fun hc => absurd hc h2⟩,
          ⟨fun _ => ⟨not_lt.mp h2, not_lt.mp h1⟩, fun _ => rfl⟩⟩
  exact ⟨_, rfl, (key (CycleAnalyzer.lstsqSlope temps)).1,
    (key (CycleAnalyzer.lstsqSlope temps)).2.1,
    (key (CycleAnalyzer.lstsqSlope temps)).2.2, rfl⟩

/-- Witness for C7: a constant 7-reading series is classified Stable with
consistency score 10; a series rising by exactly 0.02 per reading is
classified Increasing. -/
theorem c7_witness :
    (∃ r : CycleAnalyzer.TrendResult,
      CycleAnalyzer.analyze_temperature_trends
          ⟨[⟨⟨1, 0⟩, 37⟩, ⟨⟨2, 0⟩, 37⟩, ⟨⟨3, 0⟩, 37⟩, ⟨⟨4, 0⟩, 37⟩,
            ⟨⟨5, 0⟩, 37⟩, ⟨⟨6, 0⟩, 37⟩, ⟨⟨7, 0⟩, 37⟩], [], []⟩ = some r ∧
      r.trend_direction = "Stable" ∧ r.consistency_score = 10) ∧
    (∃ r : CycleAnalyzer.TrendResult,
      CycleAnalyzer.analyze_temperature_trends
          ⟨[⟨⟨1, 0⟩, 365/10⟩, ⟨⟨2, 0⟩, 3652/100⟩, ⟨⟨3, 0⟩, 3654/100⟩,
            ⟨⟨4, 0⟩, 3656/100⟩, ⟨⟨5, 0⟩, 3658/100⟩, ⟨⟨6, 0⟩, 366/10⟩,
            ⟨⟨7, 0⟩, 3662/100⟩], [], []⟩ = some r ∧
      r.trend_direction = "Increasing") := by
  constructor
  · obtain ⟨r, hr, hi, hd, hs, hscore⟩ :=
      c7_trend_analyzer
        ⟨[⟨⟨1, 0⟩, 37⟩, ⟨⟨2, 0⟩, 37⟩, ⟨⟨3, 0⟩, 37⟩, ⟨⟨4, 0⟩, 37⟩,
          ⟨⟨5, 0⟩, 37⟩, ⟨⟨6, 0⟩, 37⟩, ⟨⟨7, 0⟩, 37⟩], [], []⟩
        [37, 37, 37, 37, 37, 37, 37] (by decide) rfl
    refine ⟨r, hr, ?_, ?_⟩
    · apply hs.mpr
      constructor <;> norm_num [CycleAnalyzer.lstsqSlope, List.range_succ]
    · have hv : pyVariance [(37 : ℚ), 37, 37, 37, 37, 37, 37] = 0 := by
        norm_num [pyVariance, pyMean]
      rw [hscore, hv]
      simp
  · obtain ⟨r, hr, hi, hd, hs, hscore⟩ :=
      c7_trend_analyzer
        ⟨[⟨⟨1, 0⟩, 365/10⟩, ⟨⟨2, 0⟩, 3652/100⟩, ⟨⟨3, 0⟩, 3654/100⟩,
          ⟨⟨4, 0⟩, 3656/100⟩, ⟨⟨5, 0⟩, 3658/100⟩, ⟨⟨6, 0⟩, 366/10⟩,
          ⟨⟨7, 0⟩, 3662/100⟩], [], []⟩
        [365/10, 3652/100, 3654/100, 3656/100, 3658/100, 366/10, 3662/100]
        (by decide) rfl
    exact ⟨r, hr, hi.mpr (by norm_num [CycleAnalyzer.lstsqSlope, List.range_succ])⟩

/-- Splitting off the last term of a sum over `List.range`. -/
theorem sum_range_map_succ (f : ℕ → ℚ) (n : ℕ) :
    ((List.range (n + 1)).map f).sum = ((List.range n).map f).sum + f n := by
  simp [List.range_succ]

/-- Sums over `List.range` are additive in the summand. -/
theorem sum_range_map_add (n : ℕ) (f g : ℕ → ℚ) :
    ((List.range n).map (fun i => f i + g i)).sum =
      ((List.range n).map f).sum + ((List.range n).map g).sum := by
  induction n with
  | zero => simp
  | succ n ih =>
    rw [sum_range_map_succ, sum_range_map_succ f, sum_range_map_succ g, ih]
    ring

/-- Constant factors move out of sums over `List.range`. -/
theorem sum_range_map_smul (n : ℕ) (c : ℚ) (f : ℕ → ℚ) :
    ((List.range n).map (fun i => c * f i)).sum =
      c * ((List.range n).map f).sum := by
  induction n with
  | zero => simp
  | succ n ih =>
    rw [sum_range_map_succ, sum_range_map_succ f, ih]
    ring

/-- Summing a constant over `List.range`. -/
theorem sum_range_map_const (n : ℕ) (c : ℚ) :
    ((List.range n).map (fun _ => c)).sum = n * c := by
  induction n with
  | zero => simp
  | succ n ih =>
    rw [sum_range_map_succ (fun _ => c), ih]
    push_cast
    ring

/-- Sums of pointwise-nonnegative summands are nonnegative. -/
theorem sum_range_map_nonneg (n : ℕ) (f : ℕ → ℚ) (h : ∀ i, 0 ≤ f i) :
    0 ≤ ((List.range n).map f).sum := by
  induction n with
  | zero => simp
  | succ n ih =>
    rw [sum_range_map_succ]
    exact add_nonneg ih (h n)

/-- Gauss sum, in `ℚ`. -/
theorem sum_range_cast (n : ℕ) :
    ((List.range n).map (fun (i : Nat) => (i : ℚ))).sum = n * (n - 1) / 2 := by
  induction n with
  | zero => simp
  | succ n ih =>
    rw [sum_range_map_succ, ih]
    push_cast
    ring

/-- Sum of squares over `List.range`, in `ℚ`. -/
theorem sum_range_cast_sq (n : ℕ) :
    ((List.range n).map (fun (i : Nat) => (i : ℚ) * (i : ℚ))).sum =
      n * (n - 1) * (2 * n - 1) / 6 := by
  induction n with
  | zero => simp
  | succ n ih =>
    rw [sum_range_map_succ, ih]
    push_cast
    ring

/-- Reading a list back off by indexing over `List.range`. -/
theorem getD_range_map (l : List ℚ) :
    (List.range l.length).map (fun i => l.getD i 0) = l := by
  induction l with
  | nil => rfl
  | cons a t ih =>
    rw [List.length_cons, List.range_succ_eq_map, List.map_cons, List.map_map]
    simp only [Function.comp_def, List.getD_cons_zero, List.getD_cons_succ]
    rw [ih]

/-- Fusing the index/value zip of the slope formula into one map over
`List.range`. -/
theorem zipWith_map_range (g : ℕ → ℚ) (ys : List ℚ) :
    List.zipWith (fun a b => a * b) ((List.range ys.length).map g) ys =
      (List.range ys.length).map (fun i => g i * ys.getD i 0) := by
  induction ys generalizing g with
  | nil => rfl
  | cons a t ih =>
    rw [List.length_cons, List.range_succ_eq_map, List.map_cons, List.map_map,
      List.map_cons, List.map_map, List.zipWith_cons_cons]
    rw [ih]
    simp only [Function.comp_def, List.getD_cons_zero, List.getD_cons_succ]

/-- The slope formula, written as index sums over `List.range`. -/
theorem lstsqSlope_eq (ys : List ℚ) :
    CycleAnalyzer.lstsqSlope ys =
      ((ys.length : ℚ) *
          ((List.range ys.length).map (fun (i : Nat) => (i : ℚ) * ys.getD i 0)).sum -
        ((List.range ys.length).map (fun (i : Nat) => (i : ℚ))).sum *
          ((List.range ys.length).map (fun i => ys.getD i 0)).sum) /
      ((ys.length : ℚ) *
          ((List.range ys.length).map (fun (i : Nat) => (i : ℚ) * (i : ℚ))).sum -
        ((List.range ys.length).map (fun (i : Nat) => (i : ℚ))).sum *
          ((List.range ys.length).map (fun (i : Nat) => (i : ℚ))).sum) := by
  simp only [CycleAnalyzer.lstsqSlope]
  rw [zipWith_map_range, List.map_map]
  rw [show ys.sum = ((List.range ys.length).map (fun i => ys.getD i 0)).sum from
    by rw [getD_range_map]]
  simp only [Function.comp_def]

/-- Least-squares expansion: any line whose residuals satisfy the two normal
equations has a sum of squared residuals no larger than any other line's. -/
theorem least_squares_expand (n : ℕ) (y : ℕ → ℚ) (s bstar a b : ℚ)
    (hE : ((List.range n).map (fun i => y i - (s * i + bstar))).sum = 0)
    (hEX : ((List.range n).map (fun i => (y i - (s * i + bstar)) * i)).sum = 0) :
    ((List.range n).map (fun i => (y i - (s * i + bstar)) ^ 2)).sum ≤
      ((List.range n).map (fun i => (y i - (a * i + b)) ^ 2)).sum := by
  have hexpand : (fun i => (y i - (a * (i : ℚ) + b)) ^ 2) = fun i =>
      (((y i - (s * i + bstar)) ^ 2 + ((s - a) * i + (bstar - b)) ^ 2) +
        (2 * (s - a)) * ((y i - (s * i + bstar)) * i)) +
      (2 * (bstar - b)) * (y i - (s * i + bstar)) :=
    funext fun i => by ring
  have h1 := sum_range_map_add n
    (fun i => ((y i - (s * i + bstar)) ^ 2 + ((s - a) * i + (bstar - b)) ^ 2) +
      (2 * (s - a)) * ((y i - (s * i + bstar)) * i))
    (fun i => (2 * (bstar - b)) * (y i - (s * i + bstar)))
  have h2 := sum_range_map_add n
    (fun i => (y i - (s * i + bstar)) ^ 2 + ((s - a) * i + (bstar - b)) ^ 2)
    (fun i => (2 * (s - a)) * ((y i - (s * i + bstar)) * i))
  have h3 := sum_range_map_add n
    (fun i => (y i - (s * i + bstar)) ^ 2)
    (fun i => ((s - a) * i + (bstar - b)) ^ 2)
  have h4 := sum_range_map_smul n (2 * (s - a))
    (fun i => (y i - (s * i + bstar)) * i)
  have h5 := sum_range_map_smul n (2 * (bstar - b))
    (fun i => y i - (s * i + bstar))
  have hq : 0 ≤ ((List.range n).map
      (fun (i : ℕ) => ((s - a) * i + (bstar - b)) ^ 2)).sum :=
    sum_range_map_nonneg n (fun (i : ℕ) => ((s - a) * i + (bstar - b)) ^ 2)
      (fun i => sq_nonneg ((s - a) * i + (bstar - b)))
  rw [hexpand, h1, h2, h3, h4, h5, hE, hEX]
  linarith

/-- First normal equation: with the mean-based intercept, residuals sum to
zero (for any slope). -/
theorem normalE (n : ℕ) (y : ℕ → ℚ) (s SY SX : ℚ) (hn : (n : ℚ) ≠ 0)
    (hSY : ((List.range n).map y).sum = SY)
    (hSX : ((List.range n).map (fun (i : Nat) => (i : ℚ))).sum = SX) :
    ((List.range n).map (fun i =>
        y i - (s * i + (SY / n - s * (SX / n))))).sum = 0 := by
  have hfun : (fun i => y i - (s * (i : ℚ) + (SY / n - s * (SX / n)))) =
      fun (i : ℕ) => (y i + (-s) * (i : ℚ)) + (-(SY / n - s * (SX / n))) :=
    funext fun i => by ring
  rw [hfun,
    sum_range_map_add n (fun i => y i + (-s) * (i : ℚ))
      (fun _ => -(SY / n - s * (SX / n))),
    sum_range_map_add n y (fun (i : ℕ) => (-s) * (i : ℚ)),
    sum_range_map_smul n (-s) (fun (i : ℕ) => (i : ℚ)),
    sum_range_map_const, hSY, hSX]
  field_simp
  ring

/-- Second normal equation: with the closed-form slope and the mean-based
intercept, index-weighted residuals sum to zero. -/
theorem normalEX (n : ℕ) (y : ℕ → ℚ) (SY SX SXX SXY : ℚ) (hn : (n : ℚ) ≠ 0)
    (hden : (n : ℚ) * SXX - SX * SX ≠ 0)
    (hSX : ((List.range n).map (fun (i : Nat) => (i : ℚ))).sum = SX)
    (hSXX : ((List.range n).map (fun (i : Nat) => (i : ℚ) * (i : ℚ))).sum = SXX)
    (hSXY : ((List.range n).map (fun (i : Nat) => (i : ℚ) * y i)).sum = SXY) :
    ((List.range n).map (fun i =>
        (y i - (((n * SXY - SX * SY) / (n * SXX - SX * SX)) * i +
          (SY / n - ((n * SXY - SX * SY) / (n * SXX - SX * SX)) * (SX / n)))) *
        i)).sum = 0 := by
  have hfun : (fun i =>
      (y i - (((n : ℚ) * SXY - SX * SY) / (n * SXX - SX * SX) * i +
        (SY / n - ((n : ℚ) * SXY - SX * SY) / (n * SXX - SX * SX) * (SX / n)))) *
      (i : ℚ)) =
      fun (i : ℕ) => ((i : ℚ) * y i +
        (-(((n : ℚ) * SXY - SX * SY) / (n * SXX - SX * SX))) * ((i : ℚ) * i)) +
        (-(SY / n - ((n : ℚ) * SXY - SX * SY) / (n * SXX - SX * SX) * (SX / n))) *
          (i : ℚ) :=
    funext fun i => by ring
  rw [hfun,
    sum_range_map_add n
      (fun (i : ℕ) => (i : ℚ) * y i +
        (-(((n : ℚ) * SXY - SX * SY) / (n * SXX - SX * SX))) * ((i : ℚ) * i))
      (fun (i : ℕ) =>
        (-(SY / n - ((n : ℚ) * SXY - SX * SY) / (n * SXX - SX * SX) * (SX / n))) *
          (i : ℚ)),
    sum_range_map_add n (fun (i : ℕ) => (i : ℚ) * y i)
      (fun (i : ℕ) =>
        (-(((n : ℚ) * SXY - SX * SY) / (n * SXX - SX * SX))) * ((i : ℚ) * i)),
    sum_range_map_smul n (-(((n : ℚ) * SXY - SX * SY) / (n * SXX - SX * SX)))
      (fun (i : ℕ) => (i : ℚ) * i),
    sum_range_map_smul n
      (-(SY / n - ((n : ℚ) * SXY - SX * SY) / (n * SXX - SX * SX) * (SX / n)))
      (fun (i : ℕ) => (i : ℚ)),
    hSX, hSXX, hSXY]
  field_simp
  ring

/-- Certification of the `np.polyfit` model: the closed-form slope
`lstsqSlope ys`, together with the mean-based intercept, minimises the sum
of squared residuals over all lines, so it is the degree-1 least-squares
fit of the points `(i, ys[i])`. -/
theorem lstsqSlope_is_least_squares (ys : List ℚ) (h2 : 2 ≤ ys.length)
    (a b : ℚ) :
    ((List.range ys.length).map (fun i => (ys.getD i 0 -
        (CycleAnalyzer.lstsqSlope ys * i +
          (pyMean ys - CycleAnalyzer.lstsqSlope ys *
            pyMean ((List.range ys.length).map
              (fun (i : Nat) => (i : ℚ)))))) ^ 2)).sum ≤
      ((List.range ys.length).map
        (fun i => (ys.getD i 0 - (a * i + b)) ^ 2)).sum := by
  have h2q : (2 : ℚ) ≤ (ys.length : ℚ) := by exact_mod_cast h2
  have hn : ((ys.length : ℚ)) ≠ 0 := by linarith
  have hpy : pyMean ys =
      ((List.range ys.length).map (fun i => ys.getD i 0)).sum / (ys.length : ℚ) := by
    rw [pyMean,
      show ys.sum = ((List.range ys.length).map (fun i => ys.getD i 0)).sum from
        by rw [getD_range_map]]
  have hpx : pyMean ((List.range ys.length).map (fun (i : Nat) => (i : ℚ))) =
      ((List.range ys.length).map (fun (i : Nat) => (i : ℚ))).sum /
        (ys.length : ℚ) := by
    rw [pyMean, List.length_map, List.length_range]
  have hden : (ys.length : ℚ) *
        ((List.range ys.length).map (fun (i : Nat) => (i : ℚ) * (i : ℚ))).sum -
      ((List.range ys.length).map (fun (i : Nat) => (i : ℚ))).sum *
        ((List.range ys.length).map (fun (i : Nat) => (i : ℚ))).sum ≠ 0 := by
    rw [sum_range_cast, sum_range_cast_sq]
    have heq : (ys.length : ℚ) *
          ((ys.length : ℚ) * ((ys.length : ℚ) - 1) * (2 * (ys.length : ℚ) - 1) / 6) -
        ((ys.length : ℚ) * ((ys.length : ℚ) - 1) / 2) *
          ((ys.length : ℚ) * ((ys.length : ℚ) - 1) / 2) =
        ((ys.length : ℚ) * (ys.length : ℚ)) *
          ((((ys.length : ℚ)) - 1) * (((ys.length : ℚ)) + 1)) / 12 := by ring
    rw [heq]
    apply ne_of_gt
    apply div_pos
    · apply mul_pos
      · apply mul_pos <;> linarith
      · apply mul_pos <;> linarith
    · norm_num
  rw [hpy, hpx, lstsqSlope_eq]
  apply least_squares_expand ys.length (fun i => ys.getD i 0)
  · exact normalE ys.length (fun i => ys.getD i 0) _ _ _ hn rfl rfl
  · exact normalEX ys.length (fun i => ys.getD i 0) _ _ _ _ hn hden rfl rfl rfl
